import Mathlib

/-!
Verification of the schema-driven code-generation core of the
likeadmin backend management server (src/app/service/gen.js together with
src/app/extend/config.js and src/app/util/index.js).

The JavaScript source is shallowly embedded: every definition below is a
direct translation of the corresponding function in the source, including
its JavaScript-specific behaviour (strict equality between values of
different runtime types, properties that read as undefined, parseInt
stopping at the first non-digit, String.prototype.replace replacing only
the first occurrence, and so on).  Where a JavaScript value can be a
string, a number or undefined at the same program point, the value is
modelled by the small universe JSVal below.
-/

set_option maxRecDepth 4000

namespace Gen

/-- Universe of the JavaScript primitive values that flow through the
column-classifier fields: strings (the catalog query returns the flag
columns as the strings "0"/"1"), numbers, and undefined (an object
property that was never assigned, or was assigned a missing property such
as genConstants.require).  JavaScript strict equality on these values is
structural equality: values of different runtime types are never
strictly equal. -/
inductive JSVal where
  | undef : JSVal
  | num : Int → JSVal
  | str : String → JSVal
deriving DecidableEq, Repr, BEq

/-! Structurally recursive string primitives.  The corresponding
standard-library string functions are defined by well-founded recursion
over byte positions, which the kernel cannot evaluate; these char-list
versions compute the same functions and do evaluate, so concrete
instances can be settled by decide / rfl. -/

/-- Whether the second list is a prefix of the first. -/
def charListStartsWith : List Char → List Char → Bool
  | _, [] => true
  | [], _ :: _ => false
  | c :: cs, p :: ps => c == p && charListStartsWith cs ps

/-- String.prototype.startsWith / String.startsWith. -/
def strStartsWith (s pre : String) : Bool :=
  charListStartsWith s.toList pre.toList

/-- String.prototype.endsWith / String.endsWith. -/
def strEndsWith (s suf : String) : Bool :=
  charListStartsWith s.toList.reverse suf.toList.reverse

/-- String.prototype.toLowerCase (ASCII, which covers every name the
classifier inspects). -/
def strToLower (s : String) : String :=
  String.mk (s.toList.map Char.toLower)

/-- Whether a string contains a character (String.prototype.includes
with a one-character needle). -/
def strContainsChar (s : String) (c : Char) : Bool :=
  s.toList.contains c

/-- Fuel-driven split worker: at each position either consume the
separator (closing the accumulated piece) or move one character into
the accumulator.  The fuel is the text length, enough because every
step consumes at least one character of a non-empty separator text. -/
def splitOnFuel (sep : List Char) : Nat → List Char → List Char → List (List Char)
  | _, [], acc => [acc.reverse]
  | 0, cs, acc => [acc.reverse ++ cs]
  | fuel + 1, c :: cs, acc =>
    if charListStartsWith (c :: cs) sep then
      acc.reverse :: splitOnFuel sep fuel (cs.drop (sep.length - 1)) []
    else
      splitOnFuel sep fuel cs (c :: acc)

/-- String.prototype.split with a non-empty string separator (every
separator in the translated source is non-empty). -/
def strSplitOn (s sep : String) : List String :=
  if sep.isEmpty then [s]
  else (splitOnFuel sep.toList s.length s.toList []).map String.mk

/-- JavaScript String.prototype.replace with a string pattern replaces
only the first occurrence of the pattern (gen.js uses it for '表', '.tpl' and
'%s').  If the pattern occurs, the first split piece is followed by the
replacement and the remaining pieces are rejoined with the pattern. -/
def jsReplaceFirst (s pat repl : String) : String :=
  match strSplitOn s pat with
  | [] => s
  | [_] => s
  | p :: ps => p ++ repl ++ String.intercalate pat ps

/-- Digits-prefix value, for the parseInt model. -/
def digitsToNat (cs : List Char) : Nat :=
  cs.foldl (fun n c => n * 10 + (c.toNat - '0'.toNat)) 0

/-- JavaScript parseInt(s, 10): skip leading spaces, read an optional
sign, then the longest digit prefix; NaN (modelled none) when no digit
follows.  parseInt("10,2", 10) = 10: parsing stops at the comma. -/
def jsParseInt (s : String) : Option Int :=
  let cs := s.toList.dropWhile (fun c => c = ' ')
  let (sign, cs) : Int × List Char :=
    match cs with
    | '-' :: rest => (-1, rest)
    | '+' :: rest => (1, rest)
    | rest => (1, rest)
  let digits := cs.takeWhile (fun c => c.isDigit)
  if digits.isEmpty then none
  else some (sign * (digitsToNat digits : Int))

/-- charAt(0).toUpperCase() + slice(1); an empty word stays empty
(charAt on an empty string yields the empty string). -/
def capitalizeWord (w : String) : String :=
  match w.toList with
  | [] => ""
  | c :: cs => String.mk (c.toUpper :: cs)

/-- words.join(''): plain concatenation of a list of strings. -/
def strJoin : List String → String
  | [] => ""
  | s :: rest => s ++ strJoin rest

/-- Whether pat occurs as a contiguous run inside text. -/
def listIsInfixOf (pat text : List Char) : Bool :=
  match text with
  | [] => pat.isEmpty
  | _ :: rest => charListStartsWith text pat || listIsInfixOf pat rest

/-- SQL LIKE \x27qrtz_%\x27: the underscore is a single-character
wildcard, so the pattern matches exactly the strings that start with
"qrtz" and have at least five characters. -/
def likeQrtz (s : String) : Bool :=
  s.take 4 == "qrtz" && decide (5 ≤ s.length)

/-- SQL LIKE \x27gen_%\x27: matches the strings that start with "gen"
and have at least four characters. -/
def likeGen (s : String) : Bool :=
  s.take 3 == "gen" && decide (4 ≤ s.length)

/-! config.js constants (src/app/extend/config.js).  The identifier
dbTablePrefix of the source is rendered dbTablePre here, and
isRemoveTablePrefix is rendered isRemoveTablePre. -/

/-- config.js dbTablePrefix: the configured table prefix "la_". -/
def dbTablePre : String := "la_"

namespace genConfig

/-- config.js genConfig.isRemoveTablePrefix. -/
def isRemoveTablePre : Bool := true

end genConfig

namespace nodeConstants

def typeString : String := "string"

def typeFloat : String := "float64"

def typeInt : String := "int"

def typeDate : String := "core.TsTime"

end nodeConstants

namespace genConstants

def tplCrud : String := "crud"

def tplTree : String := "tree"

def queryLike : String := "LIKE"

def queryEq : String := "="

/-- config.js spells the flag constant qequire (a typo), value 1. -/
def qequire : Nat := 1

end genConstants

/-- gen.js reads genConstants.require (lines 497, 501, 502, 506, 510),
but config.js defines the constant under the misspelt key qequire, so
the property read yields undefined. -/
def genConstantsRequire : JSVal := JSVal.undef

namespace sqlConstants

def columnTypeStr : List String := ["char", "varchar", "nvarchar", "varchar2"]

def columnTypeText : List String := ["tinytext", "text", "mediumtext", "longtext"]

def columnTypeTime : List String := ["datetime", "time", "date", "timestamp"]

def columnTypeNumber : List String :=
  ["tinyint", "smallint", "mediumint", "int", "integer",
   "bit", "bigint", "float", "double", "decimal"]

def columnTimeName : List String :=
  ["create_time", "update_time", "delete_time", "start_time", "end_time"]

def columnNameNotAdd : List String :=
  ["id", "is_delete", "create_time", "update_time", "delete_time"]

def columnNameNotEdit : List String :=
  ["is_delete", "create_time", "update_time", "delete_time"]

def columnNameNotList : List String :=
  ["id", "intro", "content", "is_delete", "delete_time"]

def columnNameNotQuery : List String :=
  ["is_delete", "create_time", "update_time", "delete_time"]

end sqlConstants

namespace htmlConstants

def htmlInput : String := "input"

def htmlTextarea : String := "textarea"

def htmlSelect : String := "select"

def htmlRadio : String := "radio"

def htmlDatetime : String := "datetime"

def htmlImageUpload : String := "imageUpload"

def htmlFileUpload : String := "fileUpload"

def htmlEditor : String := "editor"

end htmlConstants

namespace Util

/-- util/index.js contains(src, elem): src.includes(elem) on an array. -/
def contains (src : List String) (elem : String) : Bool :=
  src.contains elem

/-- util/index.js toCamelCase: split on underscores, capitalize every
word except the first (the loop starts at index 1), join with ''. -/
def toCamelCase (s : String) : String :=
  let words := strSplitOn s "_"
  strJoin
    (match words with
     | [] => []
     | w :: ws => w :: ws.map capitalizeWord)

end Util

/-! TableCatalog: live-schema introspection (gen.js 331-433).  The live
database is modelled as a value of LiveSchema; the catalog queries are
pure reads over it. -/

/-- One row of the information_schema.tables query (gen.js 390-396). -/
structure DbTable where
  tableName : String
  tableComment : String
deriving DecidableEq, Repr

/-- One row of the information_schema.columns query (gen.js 418-427).
The derived flags isRequired, isPk and isIncrement are produced by SQL
CASE expressions whose arms are the string literals "1" and "0", so they
reach JavaScript as strings, not numbers. -/
structure DbColumn where
  columnName : String
  isRequired : String
  isPk : String
  sort : Nat
  columnComment : String
  isIncrement : String
  columnType : String
deriving DecidableEq, Repr

/-- The live relational schema: its tables and, per table name, its
column rows in ordinal-position order. -/
structure LiveSchema where
  tables : List DbTable
  columns : String → List DbColumn

/-- gen.js getDbTablesQueryByNames (385-406): the catalog rows whose
table_name is in the requested list, excluding names matching
LIKE \x27qrtz_%\x27 or LIKE \x27gen_%\x27. -/
def getDbTablesQueryByNames (schema : LiveSchema) (tableNames : List String) : List DbTable :=
  schema.tables.filter fun t =>
    !likeQrtz t.tableName && !likeGen t.tableName && tableNames.contains t.tableName

/-- gen.js getDbTableColumnsQueryByName (413-433): the column rows of
one table, ordered by ordinal position. -/
def getDbTableColumnsQueryByName (schema : LiveSchema) (tableName : String) : List DbColumn :=
  schema.columns tableName

/-! ColumnClassifier (gen.js initColumn, 441-534, and the type helpers
getDbType / getColumnLength, 585-614). -/

/-- gen.js getDbType: the declared type up to the first \x28, the whole
string when there is none. -/
def getDbType (columnType : String) : String :=
  String.mk (columnType.toList.takeWhile (fun c => c ≠ '('))

/-- gen.js getColumnLength: parseInt of the text between the first \x28
and the first \x29 after it; 0 when either bracket is missing or the
text does not parse. -/
def getColumnLength (columnType : String) : Int :=
  match columnType.toList.dropWhile (fun c => c ≠ '(') with
  | [] => 0
  | _ :: rest =>
    if rest.contains ')' then
      (jsParseInt (String.mk (rest.takeWhile (fun c => c ≠ ')')))).getD 0
    else 0

/-- The column object built by gen.js initColumn.  Fields that the
constructor assigns from the catalog flags hold the catalog strings;
fields the function may leave unassigned (htmlType) or assign the
undefined genConstants.require to (isInsert, isEdit, isList, isQuery,
and isRequired on editable columns) are JSVal / Option valued.  The
createTime/updateTime wall-clock fields are omitted: no verified
property mentions them. -/
structure InitCol where
  tableId : Nat
  columnName : String
  columnComment : String
  columnType : String
  columnLength : Int
  javaField : String
  javaType : String
  queryType : String
  sort : Nat
  isPk : JSVal
  isIncrement : JSVal
  isRequired : JSVal
  htmlType : Option String
  isInsert : JSVal
  isEdit : JSVal
  isList : JSVal
  isQuery : JSVal
deriving DecidableEq, Repr

/-- gen.js initColumn, lines 447-462: the base column object.  The
catalog flags are stored as the strings the query returned. -/
def initColumnBase (tableId : Nat) (column : DbColumn) (columnType : String)
    (columnLen : Int) : InitCol :=
  { tableId := tableId
    columnName := column.columnName
    columnComment := column.columnComment
    columnType := columnType
    columnLength := columnLen
    javaField := column.columnName
    javaType := nodeConstants.typeString
    queryType := genConstants.queryEq
    sort := column.sort
    isPk := JSVal.str column.isPk
    isIncrement := JSVal.str column.isIncrement
    isRequired := JSVal.str column.isRequired
    htmlType := none
    isInsert := JSVal.undef
    isEdit := JSVal.undef
    isList := JSVal.undef
    isQuery := JSVal.undef }

/-- gen.js initColumn, lines 464-488: the type-driven branch chain.
Note the numeric sub-branch tests for a comma in the local columnType,
which getDbType has already truncated at the first bracket. -/
def initColumnTypeBranch (columnType : String) (columnLen : Int) (col : InitCol) : InitCol :=
  if Util.contains (sqlConstants.columnTypeStr ++ sqlConstants.columnTypeText) columnType then
    if columnLen ≥ 500 || Util.contains sqlConstants.columnTypeText columnType then
      { col with htmlType := some htmlConstants.htmlTextarea }
    else
      { col with htmlType := some htmlConstants.htmlInput }
  else if Util.contains sqlConstants.columnTypeTime columnType then
    { col with javaType := nodeConstants.typeDate, htmlType := some htmlConstants.htmlDatetime }
  else if Util.contains sqlConstants.columnTimeName col.columnName then
    { col with javaType := nodeConstants.typeDate, htmlType := some htmlConstants.htmlDatetime }
  else if Util.contains sqlConstants.columnTypeNumber columnType then
    if strContainsChar columnType ',' then
      { col with htmlType := some htmlConstants.htmlInput, javaType := nodeConstants.typeFloat }
    else
      { col with htmlType := some htmlConstants.htmlInput, javaType := nodeConstants.typeInt }
  else col

/-- gen.js initColumn, lines 490-511: the CRUD-visibility flags.  The
assigned genConstants.require is undefined (config.js spells the key
qequire), and col.isPk is a catalog string, never strictly equal to the
number 0. -/
def initColumnFlags (col : InitCol) : InitCol :=
  let col :=
    if Util.contains sqlConstants.columnNameNotEdit col.columnName then
      { col with isRequired := JSVal.num 0 }
    else col
  let col :=
    if !Util.contains sqlConstants.columnNameNotAdd col.columnName then
      { col with isInsert := genConstantsRequire }
    else col
  let col :=
    if !Util.contains sqlConstants.columnNameNotEdit col.columnName then
      { col with isEdit := genConstantsRequire, isRequired := genConstantsRequire }
    else col
  let col :=
    if !Util.contains sqlConstants.columnNameNotList col.columnName && col.isPk == JSVal.num 0 then
      { col with isList := genConstantsRequire }
    else col
  let col :=
    if !Util.contains sqlConstants.columnNameNotQuery col.columnName && col.isPk == JSVal.num 0 then
      { col with isQuery := genConstantsRequire }
    else col
  col

/-- gen.js initColumn, lines 513-518: the LIKE-operator override by
column name: suffix "name", or the whole lower-cased name equal to
"title" or "mobile". -/
def initColumnQueryOp (col : InitCol) : InitCol :=
  let lowerColName := strToLower col.columnName
  if strEndsWith lowerColName "name" || Util.contains ["title", "mobile"] lowerColName then
    { col with queryType := genConstants.queryLike }
  else col

/-- gen.js initColumn, lines 520-531: the widget override chain by
column-name suffix. -/
def initColumnWidgetOverride (col : InitCol) : InitCol :=
  let lowerColName := strToLower col.columnName
  if strEndsWith lowerColName "status" || Util.contains ["is_show", "is_disable"] lowerColName then
    { col with htmlType := some htmlConstants.htmlRadio }
  else if strEndsWith lowerColName "type" || strEndsWith lowerColName "sex" then
    { col with htmlType := some htmlConstants.htmlSelect }
  else if strEndsWith lowerColName "image" then
    { col with htmlType := some htmlConstants.htmlImageUpload }
  else if strEndsWith lowerColName "file" then
    { col with htmlType := some htmlConstants.htmlFileUpload }
  else if strEndsWith lowerColName "content" then
    { col with htmlType := some htmlConstants.htmlEditor }
  else col

/-- gen.js initColumn (441-534): the stages above in source order. -/
def initColumn (tableId : Nat) (column : DbColumn) : InitCol :=
  let columnType := getDbType column.columnType
  let columnLen := getColumnLength column.columnType
  initColumnWidgetOverride
    (initColumnQueryOp
      (initColumnFlags
        (initColumnTypeBranch columnType columnLen
          (initColumnBase tableId column columnType columnLen))))

/-! SchemaImporter helpers (gen.js initTable / toClassName /
toModuleName, 541-578). -/

/-- The table object built by gen.js initTable (timestamps omitted as
above). -/
structure NewGenTable where
  tableName : String
  tableComment : String
  authorName : String
  entityName : String
  moduleName : String
  functionName : String
deriving DecidableEq, Repr

/-- gen.js toClassName: strip the configured prefix when configured to
and present, then camel-case. -/
def toClassName (name : String) : String :=
  let name :=
    if genConfig.isRemoveTablePre && dbTablePre != "" && strStartsWith name dbTablePre then
      name.drop dbTablePre.length
    else name
  Util.toCamelCase name

/-- gen.js toModuleName: names[names.length - 1] after splitting on
underscores (the split list is never empty, so the index is in range). -/
def toModuleName (name : String) : String :=
  let names := strSplitOn name "_"
  names.getD (names.length - 1) ""

/-- gen.js initTable (541-552): functionName drops only the first
occurrence of the character 表 from the comment. -/
def initTable (table : DbTable) : NewGenTable :=
  { tableName := table.tableName
    tableComment := table.tableComment
    authorName := ""
    entityName := toClassName table.tableName
    moduleName := toModuleName table.tableName
    functionName := jsReplaceFirst table.tableComment "表" "" }

/-! SchemaImporter (gen.js importTable, 99-146) and the delete operation
(gen.js delTable, 152-178).  The generator metadata store is modelled as
the two row lists plus the auto-increment counter; the persistence
collaborator's scoped transaction rolls every write of the call back on
failure, which the state-and-error return type makes explicit. -/

/-- A persisted gen_table row: the created object plus its assigned id. -/
structure GenTableRow where
  id : Nat
  row : NewGenTable
deriving DecidableEq, Repr

/-- The generator metadata store. -/
structure MetaDB where
  nextId : Nat
  genTables : List GenTableRow
  genCols : List InitCol
deriving Repr

/-- GenTable.create: assign the next id and append the row. -/
def insertGenTable (st : MetaDB) (row : NewGenTable) : Nat × MetaDB :=
  (st.nextId,
   { st with nextId := st.nextId + 1, genTables := st.genTables ++ [⟨st.nextId, row⟩] })

/-- GenTableColumn.create: append the column row. -/
def insertGenCol (st : MetaDB) (col : InitCol) : MetaDB :=
  { st with genCols := st.genCols ++ [col] }

/-- Inner loop of importTable (gen.js 133-140): create one column row
per catalog column.  The oracle injects persistence failures: oracle k
true makes the k-th create call of the import fail. -/
def importColsLoop (oracle : Nat → Bool) (tableId : Nat) :
    List DbColumn → MetaDB → Nat → Except String (MetaDB × Nat)
  | [], st, k => Except.ok (st, k)
  | c :: rest, st, k =>
    if oracle k then Except.error "ImportTable Create column err"
    else importColsLoop oracle tableId rest (insertGenCol st (initColumn tableId c)) (k + 1)

/-- Outer loop of importTable (gen.js 117-141): per matched table,
create the table row, then all of its column rows. -/
def importTablesLoop (schema : LiveSchema) (oracle : Nat → Bool) :
    List DbTable → MetaDB → Nat → Except String (MetaDB × Nat)
  | [], st, k => Except.ok (st, k)
  | tb :: rest, st, k =>
    if oracle k then Except.error "ImportTable Create table err"
    else
      let r := insertGenTable st (initTable tb)
      match importColsLoop oracle r.1 (getDbTableColumnsQueryByName schema tb.tableName) r.2 (k + 1) with
      | Except.error e => Except.error e
      | Except.ok (st2, k2) => importTablesLoop schema oracle rest st2 k2

/-- gen.js importTable (99-146): resolve the requested names against the
catalog, fail before any write when none matches, and otherwise run the
whole import inside one transaction — on any failure the transaction is
rolled back and the committed state is the original one. -/
def importTable (schema : LiveSchema) (oracle : Nat → Bool) (st : MetaDB)
    (tableNames : List String) : MetaDB × Option String :=
  let dbTbs := getDbTablesQueryByNames schema tableNames
  if dbTbs.length = 0 then (st, some "表不存在!")
  else
    match importTablesLoop schema oracle dbTbs st 0 with
    | Except.ok (st2, _) => (st2, none)
    | Except.error _ => (st, some "ImportTable Transaction err")

/-- gen.js delTable (152-178): one transaction destroying the table rows
with id in ids and the column rows with tableId in ids. -/
def delTable (st : MetaDB) (ids : List Nat) : MetaDB × Option String :=
  ({ st with
      genTables := st.genTables.filter fun r => !ids.contains r.id
      genCols := st.genCols.filter fun c => !ids.contains c.tableId },
   none)

/-! SchemaSynchronizer (gen.js syncTable, 184-273), matched-column
branch (lines 227-248).

Modelled from the spec: the Sequelize model definitions of the two
metadata tables are not under src/, so the shape of a stored column row
follows the data model of the spec (identity, owning tableId, names,
types, widget and operator enums, dictType, and the integer CRUD flags
isPk/isRequired/isInsert/isEdit/isList/isQuery); administrators may have
edited any of these fields before a sync.

The merge code itself is under src/ and is translated exactly:
line 227 calls the async initColumn without await, so the local col is a
promise object — reading col.isList on it (line 234) yields undefined,
whose strict equality with the number 0 is false, and the only own
properties col ever acquires are id (line 231) and, when the guard on
line 238 holds, htmlType and isRequired copied from the stored row
(lines 239-240).  GenTableColumn.update(col, ...) on line 243 writes
exactly the defined own properties of the values object, so the stored
row keeps every other field. -/

/-- A stored gen_table_column row. -/
structure StoredCol where
  id : Nat
  tableId : Nat
  columnName : String
  columnComment : String
  columnType : String
  javaField : String
  javaType : String
  htmlType : String
  dictType : String
  queryType : String
  sort : Nat
  isPk : Int
  isIncrement : Int
  isRequired : Int
  isInsert : Int
  isEdit : Int
  isList : Int
  isQuery : Int
deriving DecidableEq, Repr

/-- The attribute set that reaches GenTableColumn.update for a matched
column: none marks an attribute absent from the values object (left
unchanged by the update). -/
structure SyncPayload where
  dictType : Option String
  queryType : Option String
  htmlType : Option String
  isRequired : Option Int
deriving DecidableEq, Repr

/-- The update payload built by gen.js 230-241 for one matched column.
liveCol is the re-introspected catalog row; its classification is
computed (initColumn is invoked) but, the promise never being awaited,
none of its fields reaches the payload. -/
def syncMatchedPayload (liveCol : DbColumn) (prevCol : StoredCol) : SyncPayload :=
  let colIsList : JSVal := JSVal.undef
  let payload : SyncPayload := ⟨none, none, none, none⟩
  let payload :=
    if colIsList == JSVal.num 0 then
      { payload with dictType := some prevCol.dictType, queryType := some prevCol.queryType }
    else payload
  let payload :=
    if (prevCol.isRequired == 1 && prevCol.isPk == 0 && prevCol.isInsert == 1)
        || prevCol.isEdit == 1 then
      { payload with htmlType := some prevCol.htmlType, isRequired := some prevCol.isRequired }
    else payload
  let _ := initColumn prevCol.tableId liveCol
  payload

/-- GenTableColumn.update on the matched row: attributes present in the
payload are written, absent ones keep their stored value. -/
def applySyncUpdate (prevCol : StoredCol) (p : SyncPayload) : StoredCol :=
  { prevCol with
      dictType := p.dictType.getD prevCol.dictType
      queryType := p.queryType.getD prevCol.queryType
      htmlType := p.htmlType.getD prevCol.htmlType
      isRequired := p.isRequired.getD prevCol.isRequired }

/-- The stored row after the matched-column branch of one sync. -/
def syncMatchedCol (liveCol : DbColumn) (prevCol : StoredCol) : StoredCol :=
  applySyncUpdate prevCol (syncMatchedPayload liveCol prevCol)

/-! TableCatalog listing queries (gen.js getDbTablesQuery, 331-378):
the SQL text is built by string concatenation, interpolating the filter
values verbatim. -/

/-- The whereStr of gen.js 335-341: each supplied, non-empty filter
value is spliced into a LIKE clause by template-literal interpolation. -/
def dbTablesWhereStr (tableName tableComment : Option String) : String :=
  let w :=
    match tableName with
    | none => ""
    | some s => if s.isEmpty then "" else "AND lower(table_name) like lower(\"%" ++ s ++ "%\")"
  match tableComment with
  | none => w
  | some s => if s.isEmpty then w else w ++ "AND lower(table_comment) like lower(\"%" ++ s ++ "%\")"

/-- The COUNT query text of gen.js 345-353. -/
def dbTablesCountSql (tableName tableComment : Option String) : String :=
  "\n        SELECT COUNT(*) AS total\n        FROM information_schema.tables\n        WHERE table_schema = DATABASE()\n        AND table_name NOT LIKE \x27qrtz_%\x27\n        AND table_name NOT LIKE \x27gen_%\x27\n        AND table_name NOT IN (SELECT table_name FROM la_gen_table)\n        "
    ++ dbTablesWhereStr tableName tableComment
    ++ "\n      "

/-- The row query text of gen.js 359-367. -/
def dbTablesListSql (tableName tableComment : Option String) (limit offset : Nat) : String :=
  "\n        SELECT table_name AS tableName, table_comment AS tableComment, DATE_FORMAT(create_time, \x27%Y-%m-%d %H:%i:%s\x27) AS createTime, update_time AS updateTime\n        FROM information_schema.tables\n        WHERE table_schema = DATABASE()\n        AND table_name NOT LIKE \x27qrtz_%\x27\n        AND table_name NOT LIKE \x27gen_%\x27\n        AND table_name NOT IN (SELECT table_name FROM la_gen_table)\n        "
    ++ dbTablesWhereStr tableName tableComment
    ++ "\n        LIMIT " ++ toString limit ++ " OFFSET " ++ toString offset

/-- The query text of gen.js getDbTablesQueryByNames (390-397): the
requested names are passed through the :tableNames bind parameter, never
spliced into the text, so the text is one fixed string. -/
def dbTablesByNamesSql : String :=
  "\n        SELECT table_name AS tableName, table_comment AS tableComment, create_time AS createTime, update_time AS updateTime\n        FROM information_schema.tables\n        WHERE table_schema = DATABASE()\n          AND table_name NOT LIKE \x27qrtz_%\x27\n          AND table_name NOT LIKE \x27gen_%\x27\n          AND table_name IN (:tableNames)\n      "

/-! TemplateRenderer and ArtifactPackager (gen.js previewCode 280-301,
downloadCode 309-319, getSubTableInfo 634-660, renderCodeByTable
667-690, getFilePaths 698-722, genZip 749-767, genZipCode 774-798).

The templateUtil module (prepareVars / getTemplatePaths / render) is not
under src/; the whole per-table template-rendering step is therefore a
parameter tplRender of the functions below.  Every translated control
path fails before tplRender is ever consulted, so no claim depends on
its behaviour. -/

/-- A stored gen_table row as later operations read it (shape from the
data model of the spec, since the Sequelize model definitions are not
under src/; administrators may have edited any field). -/
structure StoredTable where
  id : Nat
  tableName : String
  tableComment : String
  moduleName : String
  genTpl : String
  subTableName : Option String
  subTableFk : Option String
deriving DecidableEq, Repr

/-- JavaScript truthiness test of an optional string: undefined and the
empty string are falsy. -/
def jsFalsyOptStr : Option String → Bool
  | none => true
  | some s => s.isEmpty

/-- gen.js getTablePriCol (621-627): the first column with
col.isPk === 1.  The catalog flag isPk is the string "1", never the
number 1, so the strict equality never holds. -/
def getTablePriCol (columns : List DbColumn) : Option DbColumn :=
  columns.find? fun col => JSVal.str col.isPk == JSVal.num 1

/-- The value getSubTableInfo hands to renderCodeByTable in tree mode. -/
structure SubInfo where
  pkCol : InitCol
  cols : List DbColumn
deriving DecidableEq, Repr

/-- gen.js getSubTableInfo (634-660): returns undefined (ok none) when
tableName or subTableFk is falsy; otherwise looks the table up by name,
fetches its catalog columns, and classifies the primary-key column.
getTablePriCol never finds one, so initColumn dereferences an undefined
column (a TypeError caught and rewrapped by the surrounding catch). -/
def getSubTableInfo (schema : LiveSchema) (tables : List StoredTable)
    (genTable : StoredTable) : Except String (Option SubInfo) :=
  if genTable.tableName.isEmpty || jsFalsyOptStr genTable.subTableFk then
    Except.ok none
  else
    match tables.find? (fun t => t.tableName == genTable.tableName) with
    | none => Except.error "getSubTableInfo error: 子表记录丢失！"
    | some table =>
      let cols := getDbTableColumnsQueryByName schema genTable.tableName
      match getTablePriCol cols with
      | none => Except.error "getSubTableInfo error: TypeError reading columnType of undefined"
      | some pri => Except.ok (some ⟨initColumn table.id pri, cols⟩)

/-- Type of the abstracted template-rendering step: table row, its
stored columns, sub-table primary-key column, sub-table columns, to a
map from template path to rendered text. -/
def TplRender : Type :=
  StoredTable → List StoredCol → InitCol → List DbColumn →
    Except String (List (String × String))

/-- gen.js renderCodeByTable (667-690): loads the stored columns, calls
getSubTableInfo, and dereferences data.pkCol on its result before any
template is rendered — a TypeError when the result is undefined. -/
def renderCodeByTable (tplRender : TplRender) (schema : LiveSchema)
    (tables : List StoredTable) (storedCols : List StoredCol)
    (genTable : StoredTable) : Except String (List (String × String)) :=
  let columns := storedCols.filter fun c => c.tableId == genTable.id
  match getSubTableInfo schema tables genTable with
  | Except.error e => Except.error e
  | Except.ok none =>
    Except.error "TypeError: Cannot read properties of undefined (reading pkCol)"
  | Except.ok (some data) => tplRender genTable columns data.pkCol data.cols

/-- gen.js previewCode (280-301): render, then strip the first ".tpl"
from every template path. -/
def previewCode (tplRender : TplRender) (schema : LiveSchema)
    (tables : List StoredTable) (storedCols : List StoredCol)
    (id : Nat) : Except String (List (String × String)) :=
  match tables.find? (fun t => t.id == id) with
  | none => Except.error "记录丢失！"
  | some genTable =>
    match renderCodeByTable tplRender schema tables storedCols genTable with
    | Except.error e => Except.error e
    | Except.ok tplCodeMap =>
      Except.ok (tplCodeMap.map fun e => (jsReplaceFirst e.1 ".tpl" "", e.2))

/-- The fixed template-path to file-path table of gen.js 701-710. -/
def fmtMap : List (String × String) :=
  [("nodecode/model.js.tpl", "nodecode/%s/model.js"),
   ("nodecode/controller.js.tpl", "nodecode/%s/controller.js"),
   ("nodecode/service.js.tpl", "nodecode/%s/service.js"),
   ("nodecode/route.js.tpl", "nodecode/%s/route.js"),
   ("vue/api.ts.tpl", "vue/%s/api.ts"),
   ("vue/edit.vue.tpl", "vue/%s/edit.vue"),
   ("vue/index.vue.tpl", "vue/%s/index.vue"),
   ("vue/index-tree.vue.tpl", "vue/%s/index-tree.vue")]

/-- gen.js getFilePaths (698-722): map every rendered template path
through fmtMap, substituting moduleName for %s; a template path missing
from fmtMap makes the .replace call throw (caught and rewrapped). -/
def getFilePaths : List (String × String) → String → Except String (List (String × String))
  | [], _ => Except.ok []
  | (tplPath, code) :: rest, moduleName =>
    match fmtMap.lookup tplPath with
    | none => Except.error "getFilePaths error: Cannot read properties of undefined"
    | some pat =>
      match getFilePaths rest moduleName with
      | Except.error e => Except.error e
      | Except.ok tail => Except.ok ((jsReplaceFirst pat "%s" moduleName, code) :: tail)

/-- The zip store: archive path to its list of (entry name, content)
pairs. -/
abbrev ZipFS : Type := List (String × List (String × String))

/-- fs.createWriteStream(zipPath) with the default \x27w\x27 flags plus
a fresh archiver instance: whatever was at zipPath is discarded and the
new entry list replaces it. -/
def zipWrite (fs : ZipFS) (zipPath : String) (files : List (String × String)) : ZipFS :=
  (zipPath, files) :: fs.filter fun e => e.1 ≠ zipPath

/-- gen.js genZip (749-767): compute the file paths and write them as a
fresh archive at zipPath. -/
def genZip (fs : ZipFS) (zipPath : String) (tplCodeMap : List (String × String))
    (moduleName : String) : Except String ZipFS :=
  match getFilePaths tplCodeMap moduleName with
  | Except.error e => Except.error ("genZip error: " ++ e)
  | Except.ok files => Except.ok (zipWrite fs zipPath files)

/-- GenTable.findOne ordered by id descending: among the stored rows
with the requested tableName, the one with the greatest id. -/
def findOneByNameIdDesc (tables : List StoredTable) (tableName : String) : Option StoredTable :=
  (tables.filter fun t => t.tableName == tableName).foldl
    (fun acc t =>
      match acc with
      | none => some t
      | some u => if u.id < t.id then some t else some u)
    none

/-- gen.js genZipCode (774-798): look the table up by name, render its
code, and archive it. -/
def genZipCode (tplRender : TplRender) (schema : LiveSchema)
    (tables : List StoredTable) (storedCols : List StoredCol)
    (fs : ZipFS) (zipPath : String) (tableName : String) : Except String ZipFS :=
  match findOneByNameIdDesc tables tableName with
  | none => Except.error "genZipCode error: 记录丢失！"
  | some genTable =>
    match renderCodeByTable tplRender schema tables storedCols genTable with
    | Except.error e => Except.error ("genZipCode error: " ++ e)
    | Except.ok tplCodeMap =>
      match genZip fs zipPath tplCodeMap genTable.moduleName with
      | Except.error e => Except.error ("genZipCode error: " ++ e)
      | Except.ok fs2 => Except.ok fs2

/-- gen.js downloadCode (309-319): run genZipCode for every requested
table name against the one shared zipPath, stopping at the first
failure; prior zip writes are plain file-system effects and stay. -/
def downloadCode (tplRender : TplRender) (schema : LiveSchema)
    (tables : List StoredTable) (storedCols : List StoredCol) :
    ZipFS → String → List String → ZipFS × Option String
  | fs, _, [] => (fs, none)
  | fs, zipPath, tableName :: rest =>
    match genZipCode tplRender schema tables storedCols fs zipPath tableName with
    | Except.error e => (fs, some ("DownloadCode error: " ++ e))
    | Except.ok fs2 => downloadCode tplRender schema tables storedCols fs2 zipPath rest

/-! Spec-side definitions.  These follow the words of the spec, not the
source, and exist only to be compared with the source translations. -/

/-- Spec: PascalCase of an underscore-separated name — every segment
capitalized, underscores removed. -/
def specPascalCase (s : String) : String :=
  strJoin ((strSplitOn s "_").map capitalizeWord)

/-- Spec: lower-camel-case of an underscore-separated name — the first
segment kept as is, every later segment capitalized. -/
def specLowerCamel (s : String) : String :=
  match strSplitOn s "_" with
  | [] => ""
  | w :: ws => w ++ strJoin (ws.map capitalizeWord)

/-- Spec: the last underscore-delimited segment of a name. -/
def specLastSegment (s : String) : String :=
  ((strSplitOn s "_").getLast?).getD ""

/-- Spec: the table name with the configured prefix stripped. -/
def stripTablePre (s : String) : String :=
  if strStartsWith s dbTablePre then s.drop dbTablePre.length else s

/-! Concrete inputs used by witnesses and counterexamples. -/

/-- A live schema with one importable table of two columns. -/
def exSchema : LiveSchema :=
  { tables := [⟨"demo", "演示表"⟩]
    columns := fun n =>
      if n = "demo" then
        [⟨"id", "0", "1", 1, "", "1", "int"⟩,
         ⟨"name", "1", "0", 2, "", "0", "varchar(100)"⟩]
      else [] }

/-- A persistence oracle under which no create call fails. -/
def exOracleOk : Nat → Bool := fun _ => false

/-- The empty metadata store. -/
def exDB0 : MetaDB := ⟨1, [], []⟩

/-- An abstract template renderer producing an empty map. -/
def exTplRender : TplRender := fun _ _ _ _ => Except.ok []

/-- A stored flat-mode table (subTableFk unset). -/
def exStoredTable : StoredTable := ⟨7, "la_demo", "演示表", "demo", "crud", none, none⟩

/-- A second stored flat-mode table with a distinct moduleName. -/
def exStoredTable2 : StoredTable := ⟨8, "la_user", "用户表", "user", "crud", none, none⟩

/-- A stored column carrying administrator customizations: hidden from
the list view, editable, widget select, a dictionary binding and a LIKE
operator. -/
def exStoredCol : StoredCol :=
  ⟨11, 7, "status", "状态", "tinyint", "status", "int", "select", "goods_status", "LIKE",
   3, 0, 0, 1, 1, 1, 0, 1⟩

/-- The re-introspected catalog row matching exStoredCol. -/
def exLiveCol : DbColumn := ⟨"status", "1", "0", 3, "状态", "0", "tinyint(1)"⟩

/-- Two persisted table rows for the delete-operation witness. -/
def exRow1 : GenTableRow := ⟨1, initTable ⟨"la_a", "A表"⟩⟩

/-- Second persisted table row for the delete-operation witness. -/
def exRow2 : GenTableRow := ⟨2, initTable ⟨"la_b", "B表"⟩⟩

/-- A populated metadata store for the delete-operation witness. -/
def exDelDB : MetaDB :=
  ⟨3, [exRow1, exRow2],
   [initColumn 1 ⟨"id", "0", "1", 1, "", "1", "int"⟩,
    initColumn 2 ⟨"id", "0", "1", 1, "", "1", "int"⟩]⟩

/-! Helper lemmas. -/

/-- The type branch never changes the column name or the query
operator. -/
theorem initColumnTypeBranch_fields (t : String) (l : Int) (col : InitCol) :
    (initColumnTypeBranch t l col).columnName = col.columnName ∧
    (initColumnTypeBranch t l col).queryType = col.queryType := by
  simp only [initColumnTypeBranch]
  split_ifs <;> exact ⟨rfl, rfl⟩

/-- When the declared base type is outside the character and text
families and either the temporal-type or the temporal-name test holds,
the type branch assigns the date logical type and datetime widget. -/
theorem initColumnTypeBranch_time (t : String) (l : Int) (col : InitCol)
    (htype : Util.contains (sqlConstants.columnTypeStr ++ sqlConstants.columnTypeText) t = false)
    (h : Util.contains sqlConstants.columnTypeTime t = true
      ∨ Util.contains sqlConstants.columnTimeName col.columnName = true) :
    (initColumnTypeBranch t l col).javaType = nodeConstants.typeDate ∧
    (initColumnTypeBranch t l col).htmlType = some htmlConstants.htmlDatetime := by
  unfold initColumnTypeBranch
  rcases h with h | h
  · simp [htype, h]
  · by_cases ht : Util.contains sqlConstants.columnTypeTime t = true
    · simp [htype, ht]
    · simp [htype, ht, h]

/-- The flag stage never changes the name, types, widget or operator. -/
theorem initColumnFlags_fields (col : InitCol) :
    (initColumnFlags col).columnName = col.columnName ∧
    (initColumnFlags col).javaType = col.javaType ∧
    (initColumnFlags col).htmlType = col.htmlType ∧
    (initColumnFlags col).queryType = col.queryType := by
  simp only [initColumnFlags]
  split_ifs <;> exact ⟨rfl, rfl, rfl, rfl⟩

/-- The operator stage never changes the name, logical type or
widget. -/
theorem initColumnQueryOp_fields (col : InitCol) :
    (initColumnQueryOp col).columnName = col.columnName ∧
    (initColumnQueryOp col).javaType = col.javaType ∧
    (initColumnQueryOp col).htmlType = col.htmlType := by
  simp only [initColumnQueryOp]
  split_ifs <;> exact ⟨rfl, rfl, rfl⟩

/-- The operator stage sets LIKE exactly under its guard and otherwise
keeps the operator. -/
theorem initColumnQueryOp_queryType (col : InitCol) :
    (initColumnQueryOp col).queryType =
      if strEndsWith (strToLower col.columnName) "name"
          || Util.contains ["title", "mobile"] (strToLower col.columnName) then
        genConstants.queryLike
      else col.queryType := by
  simp only [initColumnQueryOp]
  by_cases h : (strEndsWith (strToLower col.columnName) "name"
      || Util.contains ["title", "mobile"] (strToLower col.columnName)) = true
  · rw [if_pos h, if_pos h]
  · rw [if_neg h, if_neg h]

/-- The widget-override stage never changes the name, logical type or
operator. -/
theorem initColumnWidgetOverride_fields (col : InitCol) :
    (initColumnWidgetOverride col).columnName = col.columnName ∧
    (initColumnWidgetOverride col).javaType = col.javaType ∧
    (initColumnWidgetOverride col).queryType = col.queryType := by
  simp only [initColumnWidgetOverride]
  split_ifs <;> exact ⟨rfl, rfl, rfl⟩

/-- When no suffix rule matches the lower-cased name, the
widget-override stage keeps the widget. -/
theorem initColumnWidgetOverride_htmlType_id (col : InitCol)
    (h2 : (strEndsWith (strToLower col.columnName) "status"
        || Util.contains ["is_show", "is_disable"] (strToLower col.columnName)) = false)
    (h3 : (strEndsWith (strToLower col.columnName) "type"
        || strEndsWith (strToLower col.columnName) "sex") = false)
    (h4 : strEndsWith (strToLower col.columnName) "image" = false)
    (h5 : strEndsWith (strToLower col.columnName) "file" = false)
    (h6 : strEndsWith (strToLower col.columnName) "content" = false) :
    (initColumnWidgetOverride col).htmlType = col.htmlType := by
  simp [initColumnWidgetOverride, h2, h3, h4, h5, h6]

/-- The matched-column update of a sync leaves the stored row unchanged:
the dictType/queryType guard compares undefined with 0, and the
htmlType/isRequired branch copies the stored values back. -/
theorem syncMatchedCol_eq_self (liveCol : DbColumn) (prevCol : StoredCol) :
    syncMatchedCol liveCol prevCol = prevCol := by
  have hzero : (JSVal.undef == JSVal.num 0) = false := rfl
  cases prevCol
  simp only [syncMatchedCol, syncMatchedPayload, applySyncUpdate, hzero]
  split <;> simp

/-! Claim C1 (SchemaSynchronizer override preservation). -/

/-- C1: for a matched column of a sync, the stored dictType and
queryType are carried over whenever the stored column is not
list-visible, the stored htmlType and isRequired are carried over
whenever the prior record was (required and non-primary-key and
insertable) or was editable, and an administrator-set htmlType of select
on a still-editable column survives the sync unchanged. -/
theorem sync_preserves_admin_overrides (liveCol : DbColumn) (prevCol : StoredCol) :
    (prevCol.isList = 0 →
      (syncMatchedCol liveCol prevCol).dictType = prevCol.dictType ∧
      (syncMatchedCol liveCol prevCol).queryType = prevCol.queryType) ∧
    ((prevCol.isRequired = 1 ∧ prevCol.isPk = 0 ∧ prevCol.isInsert = 1) ∨ prevCol.isEdit = 1 →
      (syncMatchedCol liveCol prevCol).htmlType = prevCol.htmlType ∧
      (syncMatchedCol liveCol prevCol).isRequired = prevCol.isRequired) ∧
    (prevCol.htmlType = "select" → prevCol.isEdit = 1 →
      (syncMatchedCol liveCol prevCol).htmlType = "select") := by
  have he := syncMatchedCol_eq_self liveCol prevCol
  refine ⟨fun _ => ?_, fun _ => ?_, fun hsel _ => ?_⟩
  · rw [he]; exact ⟨rfl, rfl⟩
  · rw [he]; exact ⟨rfl, rfl⟩
  · rw [he, hsel]

/-! Claim C2 (SchemaImporter atomicity) helper lemmas. -/

/-- A successful column loop keeps the table rows and the id counter,
keeps every previously stored column row, and stores one classified row
per catalog column. -/
theorem importColsLoop_ok (o : Nat → Bool) (tid : Nat) :
    ∀ (cols : List DbColumn) (st : MetaDB) (k : Nat) (st2 : MetaDB) (k2 : Nat),
      importColsLoop o tid cols st k = Except.ok (st2, k2) →
      st2.genTables = st.genTables ∧
      (∀ x ∈ st.genCols, x ∈ st2.genCols) ∧
      (∀ c ∈ cols, initColumn tid c ∈ st2.genCols)
  | [], st, k, st2, k2, h => by
    simp only [importColsLoop, Except.ok.injEq, Prod.mk.injEq] at h
    obtain ⟨h1, _⟩ := h
    subst h1
    exact ⟨rfl, fun x hx => hx, fun c hc => absurd hc (List.not_mem_nil c)⟩
  | c :: rest, st, k, st2, k2, h => by
    by_cases ho : o k
    · simp [importColsLoop, ho] at h
    · simp only [importColsLoop, ho, if_false] at h
      obtain ⟨ht, hm, ha⟩ :=
        importColsLoop_ok o tid rest (insertGenCol st (initColumn tid c)) (k + 1) st2 k2 h
      refine ⟨ht, fun x hx => hm x ?_, fun d hd => ?_⟩
      · exact List.mem_append_left _ hx
      · rcases List.mem_cons.mp hd with hd | hd
        · subst hd
          exact hm _ (List.mem_append_right _ (List.mem_singleton.mpr rfl))
        · exact ha d hd

/-- A successful table loop keeps every previously stored row and, for
every catalog table it was given, stores its table row under some id
together with the classified rows of all of its catalog columns. -/
theorem importTablesLoop_ok (schema : LiveSchema) (o : Nat → Bool) :
    ∀ (tbs : List DbTable) (st : MetaDB) (k : Nat) (st2 : MetaDB) (k2 : Nat),
      importTablesLoop schema o tbs st k = Except.ok (st2, k2) →
      (∀ r ∈ st.genTables, r ∈ st2.genTables) ∧
      (∀ x ∈ st.genCols, x ∈ st2.genCols) ∧
      (∀ tb ∈ tbs, ∃ tid,
        GenTableRow.mk tid (initTable tb) ∈ st2.genTables ∧
        ∀ c ∈ getDbTableColumnsQueryByName schema tb.tableName,
          initColumn tid c ∈ st2.genCols)
  | [], st, k, st2, k2, h => by
    simp only [importTablesLoop, Except.ok.injEq, Prod.mk.injEq] at h
    obtain ⟨h1, _⟩ := h
    subst h1
    exact ⟨fun r hr => hr, fun x hx => hx, fun tb htb => absurd htb (List.not_mem_nil tb)⟩
  | tb :: rest, st, k, st2, k2, h => by
    by_cases ho : o k
    · simp [importTablesLoop, ho] at h
    · simp only [importTablesLoop, ho, if_false] at h
      rcases hcl : importColsLoop o (insertGenTable st (initTable tb)).1
          (getDbTableColumnsQueryByName schema tb.tableName)
          (insertGenTable st (initTable tb)).2 (k + 1) with e | p
      · rw [hcl] at h; exact absurd h (by simp)
      · rw [hcl] at h
        obtain ⟨hct, hcm, hca⟩ := importColsLoop_ok o _ _ _ _ _ _ hcl
        obtain ⟨hrt, hrm, hra⟩ := importTablesLoop_ok schema o rest p.1 p.2 st2 k2 h
        refine ⟨fun r hr => ?_, fun x hx => ?_, fun d hd => ?_⟩
        · refine hrt r ?_
          rw [hct]
          exact List.mem_append_left _ hr
        · exact hrm x (hcm x hx)
        · rcases List.mem_cons.mp hd with hd | hd
          · subst hd
            refine ⟨st.nextId, ?_, fun c hc => hrm _ (hca c hc)⟩
            refine hrt _ ?_
            rw [hct]
            exact List.mem_append_right _ (List.mem_singleton.mpr rfl)
          · exact hra d hd

/-! Claim C2 (SchemaImporter atomicity). -/

/-- C2: importTable fails with the not-found error and writes nothing
when no requested name resolves to a live table; any failure leaves the
committed state exactly as it was; and on success every matched table
row and every classified column row of every matched table is
persisted. -/
theorem importTable_atomic (schema : LiveSchema) (oracle : Nat → Bool)
    (st : MetaDB) (tableNames : List String) :
    (getDbTablesQueryByNames schema tableNames = [] →
      importTable schema oracle st tableNames = (st, some "表不存在!")) ∧
    (∀ st2 e, importTable schema oracle st tableNames = (st2, some e) → st2 = st) ∧
    (∀ st2, importTable schema oracle st tableNames = (st2, none) →
      ∀ tb ∈ getDbTablesQueryByNames schema tableNames, ∃ tid,
        GenTableRow.mk tid (initTable tb) ∈ st2.genTables ∧
        ∀ c ∈ getDbTableColumnsQueryByName schema tb.tableName,
          initColumn tid c ∈ st2.genCols) := by
  refine ⟨fun hnone => ?_, fun st2 e h => ?_, fun st2 h tb htb => ?_⟩
  · simp [importTable, hnone]
  · by_cases hlen : (getDbTablesQueryByNames schema tableNames).length = 0
    · simp only [importTable, hlen, if_pos, if_true, Prod.mk.injEq] at h
      exact h.1.symm
    · simp only [importTable, hlen, if_false] at h
      rcases hloop : importTablesLoop schema oracle
          (getDbTablesQueryByNames schema tableNames) st 0 with e2 | p
      · rw [hloop] at h
        exact (Prod.mk.injEq .. ▸ h).1.symm
      · rw [hloop] at h
        simp at h
  · by_cases hlen : (getDbTablesQueryByNames schema tableNames).length = 0
    · rw [List.length_eq_zero] at hlen
      exact absurd htb (hlen ▸ List.not_mem_nil tb)
    · simp only [importTable, hlen, if_false] at h
      rcases hloop : importTablesLoop schema oracle
          (getDbTablesQueryByNames schema tableNames) st 0 with e2 | p
      · rw [hloop] at h; simp at h
      · rw [hloop] at h
        obtain ⟨hst, _⟩ := Prod.mk.injEq .. ▸ h
        obtain ⟨_, _, ha⟩ := importTablesLoop_ok schema oracle _ st 0 p.1 p.2 (by rw [hloop])
        exact hst ▸ ha tb htb

/-- Witness for C2: importing the one live table of exSchema persists
its table row and both classified column rows. -/
theorem importTable_atomic_witness :
    ∃ tid,
      GenTableRow.mk tid (initTable ⟨"demo", "演示表"⟩) ∈
        (importTable exSchema exOracleOk exDB0 ["demo"]).1.genTables ∧
      ∀ c ∈ getDbTableColumnsQueryByName exSchema "demo",
        initColumn tid c ∈ (importTable exSchema exOracleOk exDB0 ["demo"]).1.genCols := by
  refine (importTable_atomic exSchema exOracleOk exDB0 ["demo"]).2.2
    (importTable exSchema exOracleOk exDB0 ["demo"]).1 ?_ ⟨"demo", "演示表"⟩ ?_
  · rfl
  · decide

/-! Claim C3 (import naming) helper lemmas. -/

/-- The source camel-case loop agrees with the spec-side lower-camel
formulation. -/
theorem toCamelCase_eq_spec (s : String) :
    Util.toCamelCase s = specLowerCamel s := by
  unfold Util.toCamelCase specLowerCamel
  cases h : strSplitOn s "_" <;> simp [h, strJoin]

/-- Indexing a list at length - 1 with a default is its last element
with the same default. -/
theorem getD_last_eq (l : List String) : l.getD (l.length - 1) "" = l.getLast?.getD "" := by
  match l with
  | [] => rfl
  | [a] => rfl
  | a :: b :: t =>
    have ih := getD_last_eq (b :: t)
    simp only [List.length_cons, Nat.add_sub_cancel] at ih ⊢
    rw [List.getD_cons_succ, List.getLast?_cons_cons]
    exact ih

/-- toClassName strips the configured prefix and lower-camel-cases. -/
theorem toClassName_eq_spec (name : String) :
    toClassName name = specLowerCamel (stripTablePre name) := by
  have hne : (dbTablePre != "") = true := rfl
  have hcfg : genConfig.isRemoveTablePre = true := rfl
  unfold toClassName stripTablePre
  by_cases hs : strStartsWith name dbTablePre
  · simp [hs, hne, hcfg, toCamelCase_eq_spec]
  · simp [hs, hne, hcfg, toCamelCase_eq_spec]

/-! Claim C3 (import naming). -/

/-- Counterexample to C3 as stated: the entity name of la_demo_order is
the lower-camel demoOrder, not the PascalCase DemoOrder of the stripped
table name. -/
theorem initTable_entityName_not_pascal :
    ¬ ((initTable ⟨"la_demo_order", "演示表"⟩).entityName =
        specPascalCase (stripTablePre "la_demo_order")) := by
  decide

/-- C3 amended: the persisted entityName is the lower-camel-case (first
segment kept lowercase) of the prefix-stripped table name, and
moduleName is the last underscore-delimited segment of the table
name. -/
theorem initTable_entity_module (t : DbTable) :
    (initTable t).entityName = specLowerCamel (stripTablePre t.tableName) ∧
    (initTable t).moduleName = specLastSegment t.tableName := by
  constructor
  · exact toClassName_eq_spec t.tableName
  · show toModuleName t.tableName = _
    unfold toModuleName specLastSegment
    exact getD_last_eq _

/-- Witness for C3 at the table la_demo_order. -/
theorem initTable_entity_module_witness :
    (initTable ⟨"la_demo_order", "演示表"⟩).entityName
        = specLowerCamel (stripTablePre "la_demo_order") ∧
    (initTable ⟨"la_demo_order", "演示表"⟩).moduleName
        = specLastSegment "la_demo_order" :=
  initTable_entity_module ⟨"la_demo_order", "演示表"⟩

/-! Claim C4 (time-named columns) helper lemma. -/

/-- Core computation for a time-named column: when the declared base
type is outside the character and text families, the temporal branch
(by base type or by name) fires and no later name-suffix override
touches the widget. -/
theorem initColumn_timename_core (tid : Nat) (nm req pk cmt inc ty : String) (srt : Nat)
    (htype : Util.contains (sqlConstants.columnTypeStr ++ sqlConstants.columnTypeText)
      (getDbType ty) = false)
    (h1 : Util.contains sqlConstants.columnTimeName nm = true)
    (h2 : (strEndsWith (strToLower nm) "status"
        || Util.contains ["is_show", "is_disable"] (strToLower nm)) = false)
    (h3 : (strEndsWith (strToLower nm) "type" || strEndsWith (strToLower nm) "sex") = false)
    (h4 : strEndsWith (strToLower nm) "image" = false)
    (h5 : strEndsWith (strToLower nm) "file" = false)
    (h6 : strEndsWith (strToLower nm) "content" = false) :
    (initColumn tid ⟨nm, req, pk, srt, cmt, inc, ty⟩).javaType = nodeConstants.typeDate ∧
    (initColumn tid ⟨nm, req, pk, srt, cmt, inc, ty⟩).htmlType
      = some htmlConstants.htmlDatetime := by
  have hbase :
      (initColumnBase tid ⟨nm, req, pk, srt, cmt, inc, ty⟩ (getDbType ty)
        (getColumnLength ty)).columnName = nm := rfl
  have htb := initColumnTypeBranch_time (getDbType ty) (getColumnLength ty)
    (initColumnBase tid ⟨nm, req, pk, srt, cmt, inc, ty⟩ (getDbType ty) (getColumnLength ty))
    htype (Or.inr (by rw [hbase]; exact h1))
  have n1 := (initColumnTypeBranch_fields (getDbType ty) (getColumnLength ty)
    (initColumnBase tid ⟨nm, req, pk, srt, cmt, inc, ty⟩ (getDbType ty) (getColumnLength ty))).1
  rw [hbase] at n1
  have n2 := (initColumnFlags_fields (initColumnTypeBranch (getDbType ty) (getColumnLength ty)
    (initColumnBase tid ⟨nm, req, pk, srt, cmt, inc, ty⟩ (getDbType ty) (getColumnLength ty)))).1
  rw [n1] at n2
  have n3 := (initColumnQueryOp_fields (initColumnFlags
    (initColumnTypeBranch (getDbType ty) (getColumnLength ty)
      (initColumnBase tid ⟨nm, req, pk, srt, cmt, inc, ty⟩ (getDbType ty)
        (getColumnLength ty))))).1
  rw [n2] at n3
  have hdef : initColumn tid ⟨nm, req, pk, srt, cmt, inc, ty⟩ =
      initColumnWidgetOverride (initColumnQueryOp (initColumnFlags
        (initColumnTypeBranch (getDbType ty) (getColumnLength ty)
          (initColumnBase tid ⟨nm, req, pk, srt, cmt, inc, ty⟩ (getDbType ty)
            (getColumnLength ty))))) := rfl
  rw [hdef]
  constructor
  · rw [(initColumnWidgetOverride_fields _).2.1,
      (initColumnQueryOp_fields _).2.1,
      (initColumnFlags_fields _).2.1]
    exact htb.1
  · rw [initColumnWidgetOverride_htmlType_id _
        (by rw [n3]; exact h2) (by rw [n3]; exact h3) (by rw [n3]; exact h4)
        (by rw [n3]; exact h5) (by rw [n3]; exact h6),
      (initColumnQueryOp_fields _).2.2,
      (initColumnFlags_fields _).2.2.1]
    exact htb.2

/-! Claim C4 (time-named columns). -/

/-- Counterexample to C4 as stated: a create_time column declared
varchar(50) is classified by the character-family branch, widget input
and logical type string, not date/datetime. -/
theorem initColumn_create_time_varchar_counterexample :
    ¬ ((initColumn 1 ⟨"create_time", "0", "0", 5, "", "0", "varchar(50)"⟩).javaType
          = nodeConstants.typeDate ∧
        (initColumn 1 ⟨"create_time", "0", "0", 5, "", "0", "varchar(50)"⟩).htmlType
          = some htmlConstants.htmlDatetime) := by
  decide

/-- C4 amended: a column named create_time, update_time or delete_time
gets logical type date and widget datetime for every raw SQL type whose
base type is outside the character and text families (those two
families win instead, the character/text branch being tested first). -/
theorem initColumn_time_names (tid : Nat) (c : DbColumn)
    (hname : c.columnName = "create_time" ∨ c.columnName = "update_time"
      ∨ c.columnName = "delete_time")
    (htype : Util.contains (sqlConstants.columnTypeStr ++ sqlConstants.columnTypeText)
      (getDbType c.columnType) = false) :
    (initColumn tid c).javaType = nodeConstants.typeDate ∧
    (initColumn tid c).htmlType = some htmlConstants.htmlDatetime := by
  obtain ⟨nm, req, pk, srt, cmt, inc, ty⟩ := c
  simp only at hname htype
  rcases hname with h | h | h <;> subst h
  · exact initColumn_timename_core tid _ req pk cmt inc ty srt htype
      (by decide) (by decide) (by decide) (by decide) (by decide) (by decide)
  · exact initColumn_timename_core tid _ req pk cmt inc ty srt htype
      (by decide) (by decide) (by decide) (by decide) (by decide) (by decide)
  · exact initColumn_timename_core tid _ req pk cmt inc ty srt htype
      (by decide) (by decide) (by decide) (by decide) (by decide) (by decide)

/-- Witness for C4 at create_time of raw type int. -/
theorem initColumn_time_names_witness :
    (initColumn 1 ⟨"create_time", "0", "0", 5, "", "0", "int"⟩).javaType
        = nodeConstants.typeDate ∧
    (initColumn 1 ⟨"create_time", "0", "0", 5, "", "0", "int"⟩).htmlType
        = some htmlConstants.htmlDatetime :=
  initColumn_time_names 1 ⟨"create_time", "0", "0", 5, "", "0", "int"⟩
    (Or.inl rfl) (by decide)

/-! Claim C5 (numeric classification). -/

/-- C5 evaluation at the failing input: a decimal(10,2) column gets
widget input, as claimed, but logical type int — the decimal-scale test
looks for a comma in the base type that getDbType already truncated at
the opening bracket, so the float branch can never fire. -/
theorem initColumn_decimal_scale_is_int :
    (initColumn 1 ⟨"price", "1", "0", 3, "", "0", "decimal(10,2)"⟩).javaType
        = nodeConstants.typeInt ∧
    (initColumn 1 ⟨"price", "1", "0", 3, "", "0", "decimal(10,2)"⟩).htmlType
        = some htmlConstants.htmlInput ∧
    getDbType "decimal(10,2)" = "decimal" ∧
    strContainsChar (getDbType "decimal(10,2)") ',' = false := by
  decide

/-! Claim C6 (LIKE-operator rule) helper lemmas. -/

/-- Membership in a two-element string list is the two equalities. -/
theorem contains_pair_iff (x a b : String) :
    Util.contains [a, b] x = true ↔ x = a ∨ x = b := by
  simp [Util.contains, List.contains]

/-- The operator the classifier assigns, in closed form. -/
theorem initColumn_queryType_char (tid : Nat) (c : DbColumn) :
    (initColumn tid c).queryType =
      if strEndsWith (strToLower c.columnName) "name"
          || Util.contains ["title", "mobile"] (strToLower c.columnName) then
        genConstants.queryLike
      else genConstants.queryEq := by
  have hdef : initColumn tid c =
      initColumnWidgetOverride (initColumnQueryOp (initColumnFlags
        (initColumnTypeBranch (getDbType c.columnType) (getColumnLength c.columnType)
          (initColumnBase tid c (getDbType c.columnType) (getColumnLength c.columnType))))) := rfl
  have n : (initColumnFlags (initColumnTypeBranch (getDbType c.columnType)
      (getColumnLength c.columnType) (initColumnBase tid c (getDbType c.columnType)
        (getColumnLength c.columnType)))).columnName = c.columnName := by
    rw [(initColumnFlags_fields _).1, (initColumnTypeBranch_fields _ _ _).1]
    rfl
  rw [hdef, (initColumnWidgetOverride_fields _).2.2, initColumnQueryOp_queryType, n,
    (initColumnFlags_fields _).2.2.2, (initColumnTypeBranch_fields _ _ _).2]
  rfl

/-! Claim C6 (LIKE-operator rule). -/

/-- Counterexample to C6 as stated: page_title ends with "title", yet
the classifier leaves its operator at equality — the source tests
whether the whole lower-cased name equals "title"/"mobile", not the
suffix. -/
theorem initColumn_title_suffix_counterexample :
    ¬ (((initColumn 1 ⟨"page_title", "1", "0", 2, "", "0", "varchar(100)"⟩).queryType
          = genConstants.queryLike) ↔
        (strEndsWith (strToLower "page_title") "name" = true
          ∨ strEndsWith (strToLower "page_title") "title" = true
          ∨ strEndsWith (strToLower "page_title") "mobile" = true)) := by
  decide

/-- C6 amended: the classifier assigns the LIKE operator exactly when
the lower-cased name ends with "name" or equals "title" or "mobile";
every other column keeps the equality operator. -/
theorem initColumn_queryType_like_iff (tid : Nat) (c : DbColumn) :
    ((initColumn tid c).queryType = genConstants.queryLike ↔
      (strEndsWith (strToLower c.columnName) "name" = true
        ∨ strToLower c.columnName = "title" ∨ strToLower c.columnName = "mobile")) ∧
    ((initColumn tid c).queryType = genConstants.queryLike ∨
      (initColumn tid c).queryType = genConstants.queryEq) := by
  rw [initColumn_queryType_char]
  by_cases hc : (strEndsWith (strToLower c.columnName) "name"
      || Util.contains ["title", "mobile"] (strToLower c.columnName)) = true
  · rw [if_pos hc]
    rcases Bool.or_eq_true_iff.mp hc with h | h
    · exact ⟨⟨fun _ => Or.inl h, fun _ => rfl⟩, Or.inl rfl⟩
    · rcases (contains_pair_iff _ _ _).mp h with h | h
      · exact ⟨⟨fun _ => Or.inr (Or.inl h), fun _ => rfl⟩, Or.inl rfl⟩
      · exact ⟨⟨fun _ => Or.inr (Or.inr h), fun _ => rfl⟩, Or.inl rfl⟩
  · rw [if_neg hc]
    refine ⟨⟨fun h => absurd h (by decide), fun h => ?_⟩, Or.inr rfl⟩
    exfalso
    apply hc
    rcases h with h | h | h
    · exact Bool.or_eq_true_iff.mpr (Or.inl h)
    · exact Bool.or_eq_true_iff.mpr (Or.inr ((contains_pair_iff _ _ _).mpr (Or.inl h)))
    · exact Bool.or_eq_true_iff.mpr (Or.inr ((contains_pair_iff _ _ _).mpr (Or.inr h)))

/-- Witness for C6 at the column nick_name, whose lower-cased name ends
with "name". -/
theorem initColumn_queryType_like_iff_witness :
    (initColumn 1 ⟨"nick_name", "1", "0", 2, "", "0", "varchar(30)"⟩).queryType
      = genConstants.queryLike :=
  (initColumn_queryType_like_iff 1 ⟨"nick_name", "1", "0", 2, "", "0", "varchar(30)"⟩).1.mpr
    (Or.inl (by decide))

/-! Claim C8 (delete frame effect). -/

/-- C8: deleting a set of table ids removes exactly the table rows with
id in the set and exactly the column rows whose tableId is in the set;
every other row survives unchanged, and the transaction reports no
error. -/
theorem delTable_exact (st : MetaDB) (ids : List Nat) :
    (∀ r, r ∈ (delTable st ids).1.genTables ↔ r ∈ st.genTables ∧ r.id ∉ ids) ∧
    (∀ c, c ∈ (delTable st ids).1.genCols ↔ c ∈ st.genCols ∧ c.tableId ∉ ids) ∧
    (delTable st ids).2 = none := by
  refine ⟨fun r => ?_, fun c => ?_, rfl⟩ <;>
    simp [delTable, List.mem_filter]

/-- Witness for C8: deleting table id 1 keeps row 2 and removes
row 1. -/
theorem delTable_exact_witness :
    exRow2 ∈ (delTable exDelDB [1]).1.genTables ∧
    exRow1 ∉ (delTable exDelDB [1]).1.genTables :=
  ⟨((delTable_exact exDelDB [1]).1 exRow2).mpr ⟨by decide, by decide⟩,
   fun h => absurd (((delTable_exact exDelDB [1]).1 exRow1).mp h).2 (by decide)⟩

/-! Claim C9 (catalog-query parameterization). -/

/-- C9 evaluation at the failing input: the table-name filter value is
spliced verbatim into the catalog query text (an injection payload
included), never bound as a parameter. -/
theorem dbTablesQuery_embeds_filter_verbatim :
    listIsInfixOf ("\" OR \"1\"=\"1").toList
      ((dbTablesCountSql (some "\" OR \"1\"=\"1") none).toList) = true ∧
    listIsInfixOf ("\" OR \"1\"=\"1").toList
      ((dbTablesListSql (some "\" OR \"1\"=\"1") none 10 0).toList) = true := by
  decide

/-! Claim C7 (download packaging) helper lemmas. -/

/-- getTablePriCol never finds a primary-key column: the catalog flag
is the string "1", and the strict comparison with the number 1 is
false for every row. -/
theorem getTablePriCol_none (cols : List DbColumn) : getTablePriCol cols = none := by
  rw [getTablePriCol, List.find?_eq_none]
  intro x _ h
  rw [show (JSVal.str x.isPk == JSVal.num 1) = false from rfl] at h
  exact Bool.false_ne_true h

/-- getSubTableInfo never produces a sub-table payload: either a falsy
tableName/subTableFk short-circuits it to undefined, or the missing
primary-key column makes the classification throw. -/
theorem getSubTableInfo_not_some (schema : LiveSchema) (tables : List StoredTable)
    (genTable : StoredTable) (d : SubInfo) :
    getSubTableInfo schema tables genTable ≠ Except.ok (some d) := by
  unfold getSubTableInfo
  split_ifs with h
  · simp
  · cases hf : tables.find? (fun t => t.tableName == genTable.tableName) with
    | none => simp
    | some table => simp [getTablePriCol_none]

/-- Rendering always fails: for a flat table getSubTableInfo returns no
value and renderCodeByTable dereferences it; for a tree table the
primary-key lookup fails first. -/
theorem renderCodeByTable_always_fails (tplRender : TplRender) (schema : LiveSchema)
    (tables : List StoredTable) (storedCols : List StoredCol) (genTable : StoredTable) :
    ∃ e, renderCodeByTable tplRender schema tables storedCols genTable = Except.error e := by
  unfold renderCodeByTable
  rcases hsub : getSubTableInfo schema tables genTable with e | o
  · exact ⟨e, rfl⟩
  · cases o with
    | none => exact ⟨_, rfl⟩
    | some d => exact absurd hsub (getSubTableInfo_not_some schema tables genTable d)

/-- genZipCode always fails before writing anything to the archive
store. -/
theorem genZipCode_always_fails (tplRender : TplRender) (schema : LiveSchema)
    (tables : List StoredTable) (storedCols : List StoredCol)
    (fs : ZipFS) (zipPath tableName : String) :
    ∃ e, genZipCode tplRender schema tables storedCols fs zipPath tableName
      = Except.error e := by
  unfold genZipCode
  cases hf : findOneByNameIdDesc tables tableName with
  | none => exact ⟨_, rfl⟩
  | some t =>
    obtain ⟨e, he⟩ := renderCodeByTable_always_fails tplRender schema tables storedCols t
    exact ⟨"genZipCode error: " ++ e, by simp only [he]⟩

/-! Claim C7 (download packaging). -/

/-- Counterexample to C7 as stated: downloading two flat tables writes
no archive at all — the download fails during rendering and the zip
store keeps no entry for the requested path, so the archive does not
contain the union of the two tables' file sets. -/
theorem downloadCode_union_counterexample :
    List.lookup "/tmp/gen.zip"
      ((downloadCode exTplRender exSchema [exStoredTable, exStoredTable2] []
        ([] : ZipFS) "/tmp/gen.zip" ["la_demo", "la_user"]).1) = none ∧
    ((downloadCode exTplRender exSchema [exStoredTable, exStoredTable2] []
      ([] : ZipFS) "/tmp/gen.zip" ["la_demo", "la_user"]).2).isSome = true := by
  decide

/-- C7 amended: every download request over a non-empty list of table
names fails and leaves the archive store unchanged, because rendering
fails for every stored table before the packager writes anything. -/
theorem downloadCode_writes_nothing (tplRender : TplRender) (schema : LiveSchema)
    (tables : List StoredTable) (storedCols : List StoredCol)
    (fs : ZipFS) (zipPath : String) (tableNames : List String)
    (h : tableNames ≠ []) :
    (downloadCode tplRender schema tables storedCols fs zipPath tableNames).1 = fs ∧
    ((downloadCode tplRender schema tables storedCols fs zipPath tableNames).2).isSome
      = true := by
  cases tableNames with
  | nil => exact absurd rfl h
  | cons n rest =>
    obtain ⟨e, he⟩ := genZipCode_always_fails tplRender schema tables storedCols fs zipPath n
    unfold downloadCode
    rw [he]
    exact ⟨rfl, rfl⟩

/-- Witness for C7 at a concrete request: the pre-existing archive
entry is untouched and the call reports a failure. -/
theorem downloadCode_writes_nothing_witness :
    (downloadCode exTplRender exSchema [exStoredTable] []
      ([("zips/old.zip", [("a.txt", "x")])] : ZipFS) "zips/code.zip" ["la_demo"]).1
      = [("zips/old.zip", [("a.txt", "x")])] ∧
    ((downloadCode exTplRender exSchema [exStoredTable] []
      ([("zips/old.zip", [("a.txt", "x")])] : ZipFS) "zips/code.zip" ["la_demo"]).2).isSome
      = true :=
  downloadCode_writes_nothing exTplRender exSchema [exStoredTable] []
    [("zips/old.zip", [("a.txt", "x")])] "zips/code.zip" ["la_demo"] (by decide)

/-! Claim C10 (flat-mode preview failure). -/

/-- C10: for every stored table whose subTableFk is unset,
renderCodeByTable fails (getSubTableInfo returns no value and the
pkCol dereference on it throws before any template is rendered), and
previewCode on that table's id fails with it. -/
theorem previewCode_flat_fails (tplRender : TplRender) (schema : LiveSchema)
    (tables : List StoredTable) (storedCols : List StoredCol) (id : Nat)
    (genTable : StoredTable)
    (hfind : tables.find? (fun t => t.id == id) = some genTable)
    (hfk : genTable.subTableFk = none) :
    (∃ e, renderCodeByTable tplRender schema tables storedCols genTable
      = Except.error e) ∧
    (∃ e, previewCode tplRender schema tables storedCols id = Except.error e) := by
  have hsub : getSubTableInfo schema tables genTable = Except.ok none := by
    unfold getSubTableInfo
    rw [hfk]
    simp [jsFalsyOptStr]
  have hrender : renderCodeByTable tplRender schema tables storedCols genTable =
      Except.error "TypeError: Cannot read properties of undefined (reading pkCol)" := by
    unfold renderCodeByTable
    rw [hsub]
  refine ⟨⟨_, hrender⟩,
    ⟨"TypeError: Cannot read properties of undefined (reading pkCol)", ?_⟩⟩
  simp only [previewCode, hfind, hrender]

/-- Witness for C10 at a concrete flat-mode table. -/
theorem previewCode_flat_fails_witness :
    (∃ e, previewCode exTplRender exSchema [exStoredTable] [] 7 = Except.error e) ∧
    (∃ e, renderCodeByTable exTplRender exSchema [exStoredTable] [] exStoredTable
      = Except.error e) := by
  have h := previewCode_flat_fails exTplRender exSchema [exStoredTable] [] 7
    exStoredTable rfl rfl
  exact ⟨h.2, h.1⟩

/-- Witness for C1 at a concrete administrator-customized column. -/
theorem sync_preserves_admin_overrides_witness :
    (syncMatchedCol exLiveCol exStoredCol).dictType = exStoredCol.dictType ∧
    (syncMatchedCol exLiveCol exStoredCol).queryType = exStoredCol.queryType ∧
    (syncMatchedCol exLiveCol exStoredCol).htmlType = "select" := by
  have h := sync_preserves_admin_overrides exLiveCol exStoredCol
  exact ⟨(h.1 rfl).1, (h.1 rfl).2, h.2.2 rfl rfl⟩

end Gen
